import Mathlib

/-!
# Verification of the wave-roll-solo document/webview bridge

A shallow embedding of the core of the `wave-roll-solo` VS Code extension:
the host-side custom-editor provider (`src/midiEditorProvider.ts`) and the
sandboxed webview script (`webview/main.ts`).  Byte buffers are lists of
naturals below 256, the durable key-value store is an association list,
the filesystem is a probe oracle, and the webview's mutable module state is
an explicit record threaded through the handlers.  Theorems at the end
settle the specification's claims against these definitions.
-/

/- ### Binary transport (base64)

Host side: `Buffer.from(document.data).toString("base64")` — RFC 4648
standard alphabet with `=` padding.  Webview side:
`decodeBase64ToUint8Array` = `atob` followed by `charCodeAt` into a
`Uint8Array`. -/

/-- The standard base64 alphabet shared by `Buffer.toString("base64")`
and `atob`. -/
def base64Alphabet : List Char :=
  "ABCDEFGHIJKLMNOPQRSTUVWXYZabcdefghijklmnopqrstuvwxyz0123456789+/".toList

/-- Character for a six-bit group. -/
def sextetToChar (s : Nat) : Char := base64Alphabet.getD s 'A'

/-- Six-bit value of an alphabet character (as `atob` reads it). -/
def charToSextet (c : Char) : Nat := base64Alphabet.indexOf c

/-- Host-side encoding of a byte list, as produced by
`Buffer.from(bytes).toString("base64")` in `sendMidiData`. -/
def b64encodeBytes : List Nat → List Char
  | b1 :: b2 :: b3 :: rest =>
      sextetToChar (b1 / 4) ::
      sextetToChar (b1 % 4 * 16 + b2 / 16) ::
      sextetToChar (b2 % 16 * 4 + b3 / 64) ::
      sextetToChar (b3 % 64) ::
      b64encodeBytes rest
  | [b1, b2] =>
      [sextetToChar (b1 / 4), sextetToChar (b1 % 4 * 16 + b2 / 16),
        sextetToChar (b2 % 16 * 4), '=']
  | [b1] =>
      [sextetToChar (b1 / 4), sextetToChar (b1 % 4 * 16), '=', '=']
  | [] => []

/-- Webview-side decoding: `decodeBase64ToUint8Array` runs `atob` and
collects the code points of the resulting binary string. -/
def decodeBase64ToUint8Array : List Char → List Nat
  | c1 :: c2 :: c3 :: c4 :: rest =>
      if c3 = '=' then
        [charToSextet c1 * 4 + charToSextet c2 / 16]
      else if c4 = '=' then
        [charToSextet c1 * 4 + charToSextet c2 / 16,
          charToSextet c2 % 16 * 16 + charToSextet c3 / 4]
      else
        (charToSextet c1 * 4 + charToSextet c2 / 16) ::
        (charToSextet c2 % 16 * 16 + charToSextet c3 / 4) ::
        (charToSextet c3 % 4 * 64 + charToSextet c4) ::
        decodeBase64ToUint8Array rest
  | _ => []

/- ### Host side: appearance settings store (`src/midiEditorProvider.ts`) -/

/-- Onset-marker sub-structure of the persisted appearance settings. -/
structure OnsetMarker where
  shape : String
  filledVariant : Bool
deriving DecidableEq, Repr

/-- `AppearanceSettings` as persisted by the provider. -/
structure AppearanceSettings where
  paletteId : String
  noteColor : Option Nat
  onsetMarker : Option OnsetMarker
deriving DecidableEq, Repr

/-- `APPEARANCE_STORAGE_PREFIX` — storage key namespace for settings. -/
def appearanceStoragePrefixStr : String := "appearance:"

/-- `getSettingsKey`: storage key for a file's appearance settings. -/
def getSettingsKey (uri : String) : String := appearanceStoragePrefixStr ++ uri

/-- The host-durable key-value store (`context.globalState`). -/
def GlobalState : Type := List (String × AppearanceSettings)

/-- `globalState.get`: value stored at a key, if any. -/
def stateGet (st : GlobalState) (key : String) : Option AppearanceSettings :=
  (st.find? fun p => p.1 == key).map (·.2)

/-- `globalState.update`: wholesale overwrite of a key's value. -/
def stateUpdate (st : GlobalState) (key : String) (v : AppearanceSettings) :
    GlobalState :=
  (key, v) :: st.filter fun p => !(p.1 == key)

/-- `loadAppearanceSettings`. -/
def loadAppearanceSettings (st : GlobalState) (uri : String) :
    Option AppearanceSettings :=
  stateGet st (getSettingsKey uri)

/-- `saveAppearanceSettings`. -/
def saveAppearanceSettings (st : GlobalState) (uri : String)
    (settings : AppearanceSettings) : GlobalState :=
  stateUpdate st (getSettingsKey uri) settings

/- ### Messages across the isolation boundary -/

/-- The JavaScript value found in `message.settings` of a `save-settings`
message, as seen by the guard `if (settings)`. -/
inductive SettingsPayload
  | absent
  | nullPayload
  | value (s : AppearanceSettings)
deriving DecidableEq, Repr

/-- JS truthiness of the payload: only an actual settings object passes
the `if (settings)` guard. -/
def SettingsPayload.truthy : SettingsPayload → Bool
  | .value _ => true
  | _ => false

/-- Messages posted by the webview to the host. -/
inductive WebviewMsg
  | ready
  | getSettings
  | saveSettings (payload : SettingsPayload)
  | exportMidi (data : List Char) (filename : String)
  | addMidiFiles
  | addAudioFile
  | errorMsg (message : String)
deriving DecidableEq, Repr

/-- Messages posted by the host to the webview. -/
inductive HostMsg
  | midiData (data : List Char) (filename : String)
  | settingsLoaded (settings : Option AppearanceSettings)
  | fileAdded (data : List Char) (filename : String)
deriving DecidableEq, Repr

/- ### Host side: export resolver -/

/-- Outcome of `vscode.workspace.fs.stat` on a candidate URI. -/
inductive ProbeResult
  | ok
  | errNotFound
  | errOther
deriving DecidableEq, Repr

/-- `fileExists`: `stat` succeeding yields `true`; the bare `catch`
turns every failure — not-found or otherwise — into `false`. -/
def fileExists (fs : String → ProbeResult) (uri : String) : Bool :=
  match fs uri with
  | .ok => true
  | _ => false

/-- `filename.lastIndexOf(".")` (`-1` when absent). -/
def lastIndexOfDotAux : List Char → Nat → Int → Int
  | [], _, acc => acc
  | c :: rest, i, acc =>
      lastIndexOfDotAux rest (i + 1) (if c = '.' then (i : Int) else acc)

/-- Index of the last `.` in a filename, `-1` when there is none. -/
def lastIndexOfDot (f : String) : Int := lastIndexOfDotAux f.toList 0 (-1)

/-- `baseName` from `getUniqueFileUri`: the part before the last dot,
but only when that dot's index is positive (`lastDotIndex > 0`). -/
def baseNameOf (f : String) : String :=
  if 0 < lastIndexOfDot f then String.mk (f.toList.take (lastIndexOfDot f).toNat)
  else f

/-- `extension` from `getUniqueFileUri`: the part from the last dot on,
but only when that dot's index is positive. -/
def extensionOf (f : String) : String :=
  if 0 < lastIndexOfDot f then String.mk (f.toList.drop (lastIndexOfDot f).toNat)
  else ""

/-- The filename probed at loop iteration `counter`:
the original name first, then `base(counter)extension`. -/
def candidateName (f : String) (counter : Nat) : String :=
  if counter = 0 then f
  else baseNameOf f ++ "(" ++ toString counter ++ ")" ++ extensionOf f

/-- `vscode.Uri.joinPath(directory, name)`. -/
def joinPath (dir name : String) : String := dir ++ "/" ++ name

/-- The probe loop of `getUniqueFileUri`, with explicit fuel standing for
the unbounded `while`: `none` means no free candidate was found within
`fuel` probes. -/
def getUniqueFileUriAux (fs : String → ProbeResult) (dir f : String) :
    Nat → Nat → Option String
  | 0, _ => none
  | fuel + 1, counter =>
      if fileExists fs (joinPath dir (candidateName f counter)) then
        getUniqueFileUriAux fs dir f fuel (counter + 1)
      else some (joinPath dir (candidateName f counter))

/-- `getUniqueFileUri`: first candidate the existence probe reports free. -/
def getUniqueFileUri (fs : String → ProbeResult) (dir f : String)
    (fuel : Nat) : Option String :=
  getUniqueFileUriAux fs dir f fuel 0

/-- Claim C6's splitting rule, formalised from the spec's words: split at
the last separator character whenever one is present (wherever it occurs),
no extension only when no separator is present. -/
def claimBaseName (f : String) : String :=
  if 0 ≤ lastIndexOfDot f then String.mk (f.toList.take (lastIndexOfDot f).toNat)
  else f

/-- Claim C6's extension rule, formalised from the spec's words. -/
def claimExtensionOf (f : String) : String :=
  if 0 ≤ lastIndexOfDot f then String.mk (f.toList.drop (lastIndexOfDot f).toNat)
  else ""

/-- Candidate names as claim C6 predicts them. -/
def claimCandidateName (f : String) (counter : Nat) : String :=
  if counter = 0 then f
  else claimBaseName f ++ "(" ++ toString counter ++ ")" ++ claimExtensionOf f

/- ### Host side: message router (`resolveCustomEditor`) -/

/-- One open document: `uri.toString()`, `uri.path`, and its bytes. -/
structure MidiDocument where
  uri : String
  path : String
  data : List Nat
deriving DecidableEq, Repr

/-- Host-side observable effects of one inbound message. -/
structure HostEffects where
  messages : List HostMsg
  writes : List (String × List Nat)
  notices : List String
deriving DecidableEq, Repr

/-- No observable effect. -/
def emptyEffects : HostEffects := ⟨[], [], []⟩

/-- `document.uri.path.split("/").pop() ?? "unknown.mid"`. -/
def fileNameOf (path : String) : String :=
  (path.splitOn "/").getLastD "unknown.mid"

/-- `vscode.Uri.joinPath(originalUri, "..")`: the document's directory. -/
def parentDir (uri : String) : String :=
  String.intercalate "/" ((uri.splitOn "/").dropLast)

/-- `handleMidiExport`: decode the payload, resolve a unique target in the
original file's directory, write it there and notify. -/
def handleMidiExport (fs : String → ProbeResult) (fuel : Nat)
    (originalUri : String) (base64Data : List Char) (filename : String) :
    HostEffects :=
  let midiBytes := decodeBase64ToUint8Array base64Data
  let originalDir := parentDir originalUri
  match getUniqueFileUri fs originalDir filename fuel with
  | some target =>
      ⟨[], [(target, midiBytes)], ["MIDI exported: " ++ target]⟩
  | none => emptyEffects

/-- The `onDidReceiveMessage` switch of `resolveCustomEditor`.  Note the
source switch has no `add-midi-files` / `add-audio-file` cases: those
messages fall through with no effect. -/
def handleWebviewMessage (fs : String → ProbeResult) (fuel : Nat)
    (doc : MidiDocument) (store : GlobalState) (msg : WebviewMsg) :
    GlobalState × HostEffects :=
  match msg with
  | .ready =>
      (store,
        ⟨[HostMsg.midiData (b64encodeBytes doc.data) (fileNameOf doc.path)],
          [], []⟩)
  | .getSettings =>
      (store,
        ⟨[HostMsg.settingsLoaded (loadAppearanceSettings store doc.uri)],
          [], []⟩)
  | .saveSettings payload =>
      match payload with
      | .value s => (saveAppearanceSettings store doc.uri s, emptyEffects)
      | _ => (store, emptyEffects)
  | .exportMidi data filename =>
      (store, handleMidiExport fs fuel doc.uri data filename)
  | .errorMsg m => (store, ⟨[], [], ["Wave Roll Solo: " ++ m]⟩)
  | .addMidiFiles => (store, emptyEffects)
  | .addAudioFile => (store, emptyEffects)

/-- Modelled from the spec: the host-side handler for `add-midi-files` /
`add-audio-file`, which is missing from the code under `src/` (only its
webview-side callers and the `file-added` consumer are present).  Per
§4.4: open a native file picker; on selection read the chosen file's
bytes, encode them, and push a `file-added` message back.  `picker` is
the dialog's outcome: the chosen filename and bytes, or `none` when the
user cancels. -/
def handleAddFileRequest (picker : Option (String × List Nat)) :
    List HostMsg :=
  match picker with
  | some (name, bytes) => [HostMsg.fileAdded (b64encodeBytes bytes) name]
  | none => []

/- ### Webview side: session manager (`webview/main.ts`)

The webview's module-level mutable state is an explicit record;
handle/player/subscription identities are drawn from a freshness counter.
Each handler returns the updated state together with the list of primitive
actions it performed, in source order. -/

/-- Primitive sandbox-side actions, logged in the order the webview code
performs them. -/
inductive Act
  | gateWait
  | decodeData
  | disposePlayer (p : Nat)
  | revokeHandle (h : Nat)
  | allocHandle (h : Nat)
  | constructPlayer (p : Nat) (h : Nat)
  | unsubscribe (u : Nat)
  | subscribeFileAdd (u : Nat)
  | subscribeAudioAdd (u : Nat)
  | subscribeAppearance (u : Nat)
  | postMessage (m : WebviewMsg)
deriving DecidableEq, Repr

/-- The webview's module-level state. -/
structure WebviewState where
  playerInstance : Option Nat
  currentBlobUrl : Option Nat
  appearanceChangeUnsubscribe : Option Nat
  fileAddRequestUnsubscribe : Option Nat
  audioFileAddRequestUnsubscribe : Option Nat
  pendingSettingsRequest : Bool
  fresh : Nat
deriving DecidableEq, Repr

/-- State at script start: no player, no blob URL, no subscriptions. -/
def initialWebviewState : WebviewState := ⟨none, none, none, none, none, false, 0⟩

/-- `revokeBlobUrl`: release the current handle if one is live; a no-op
otherwise. -/
def revokeBlobUrl (st : WebviewState) : WebviewState × List Act :=
  match st.currentBlobUrl with
  | some h => ({ st with currentBlobUrl := none }, [Act.revokeHandle h])
  | none => (st, [])

/-- `requestSavedSettings`: raise the suppress-echo flag and ask the host
for the stored settings. -/
def requestSavedSettings (st : WebviewState) : WebviewState × List Act :=
  ({ st with pendingSettingsRequest := true },
    [Act.postMessage WebviewMsg.getSettings])

/-- `setupFileAddRequestListener`: drop stale add-file subscriptions,
then subscribe to the engine's add-file and add-audio requests. -/
def setupFileAddRequestListener (st : WebviewState) : WebviewState × List Act :=
  if st.playerInstance.isNone then (st, [])
  else
    let (st1, a1) :=
      match st.fileAddRequestUnsubscribe with
      | some u => ({ st with fileAddRequestUnsubscribe := none },
          [Act.unsubscribe u])
      | none => (st, [])
    let (st2, a2) :=
      match st1.audioFileAddRequestUnsubscribe with
      | some u => ({ st1 with audioFileAddRequestUnsubscribe := none },
          [Act.unsubscribe u])
      | none => (st1, [])
    ({ st2 with
        fileAddRequestUnsubscribe := some st2.fresh,
        audioFileAddRequestUnsubscribe := some (st2.fresh + 1),
        fresh := st2.fresh + 2 },
      a1 ++ a2 ++ [Act.subscribeFileAdd st2.fresh,
        Act.subscribeAudioAdd (st2.fresh + 1)])

/-- `setupAppearanceChangeListener`: drop the stale appearance
subscription, then subscribe to appearance changes. -/
def setupAppearanceChangeListener (st : WebviewState) :
    WebviewState × List Act :=
  if st.playerInstance.isNone then (st, [])
  else
    let (st1, a1) :=
      match st.appearanceChangeUnsubscribe with
      | some u => ({ st with appearanceChangeUnsubscribe := none },
          [Act.unsubscribe u])
      | none => (st, [])
    ({ st1 with
        appearanceChangeUnsubscribe := some st1.fresh,
        fresh := st1.fresh + 1 },
      a1 ++ [Act.subscribeAppearance st1.fresh])

/-- `initializeWaveRollPlayer` (success path): dispose the previous
player, revoke the previous blob URL, allocate a fresh handle, construct
the engine against it, then wire the listeners and request settings. -/
def initWaveRollPlayer (st : WebviewState) : WebviewState × List Act :=
  let (st1, a1) :=
    match st.playerInstance with
    | some p => ({ st with playerInstance := none }, [Act.disposePlayer p])
    | none => (st, [])
  let (st2, a2) := revokeBlobUrl st1
  let st3 : WebviewState :=
    { st2 with currentBlobUrl := some st2.fresh, fresh := st2.fresh + 1 }
  let a3 := [Act.allocHandle st2.fresh]
  let st4 : WebviewState :=
    { st3 with playerInstance := some st3.fresh, fresh := st3.fresh + 1 }
  let a4 := [Act.constructPlayer st3.fresh st2.fresh]
  let (st5, a5) := setupFileAddRequestListener st4
  let (st6, a6) := requestSavedSettings st5
  let (st7, a7) := setupAppearanceChangeListener st6
  (st7, a1 ++ a2 ++ a3 ++ a4 ++ a5 ++ a6 ++ a7)

/-- `handleMidiData` (success path): await the layout gate, decode the
payload, then rebuild the player. -/
def handleMidiData (st : WebviewState) : WebviewState × List Act :=
  let (st', acts) := initWaveRollPlayer st
  (st', Act.gateWait :: Act.decodeData :: acts)

/-- The `beforeunload` handler: unsubscribe everything, dispose the live
player, revoke the blob URL. -/
def beforeUnload (st : WebviewState) : WebviewState × List Act :=
  let (st1, a1) :=
    match st.appearanceChangeUnsubscribe with
    | some u => ({ st with appearanceChangeUnsubscribe := none },
        [Act.unsubscribe u])
    | none => (st, [])
  let (st2, a2) :=
    match st1.fileAddRequestUnsubscribe with
    | some u => ({ st1 with fileAddRequestUnsubscribe := none },
        [Act.unsubscribe u])
    | none => (st1, [])
  let (st3, a3) :=
    match st2.audioFileAddRequestUnsubscribe with
    | some u => ({ st2 with audioFileAddRequestUnsubscribe := none },
        [Act.unsubscribe u])
    | none => (st2, [])
  let (st4, a4) :=
    match st3.playerInstance with
    | some p => ({ st3 with playerInstance := none }, [Act.disposePlayer p])
    | none => (st3, [])
  let (st5, a5) := revokeBlobUrl st4
  (st5, a1 ++ a2 ++ a3 ++ a4 ++ a5)

/-- `n` sequential successful `midi-data` loads from a given state. -/
def runLoads : Nat → WebviewState → WebviewState × List Act
  | 0, st => (st, [])
  | n + 1, st =>
      let (st1, a1) := handleMidiData st
      let (st2, a2) := runLoads n st1
      (st2, a1 ++ a2)

/-- A full sandbox run: `n` load-data events, then the unload teardown. -/
def loadScenario (n : Nat) : List Act :=
  let (st, acts) := runLoads n initialWebviewState
  acts ++ (beforeUnload st).2

/-- Resource replay: tracks whether a player and a handle are live and
fails (`none`) if a construction happens while a player is live, an
allocation happens while a handle is live or before the previous player
was disposed, or a disposal/release happens with nothing live. -/
def resStep : Option (Bool × Bool) → Act → Option (Bool × Bool)
  | none, _ => none
  | some (pl, hd), a =>
      match a with
      | Act.constructPlayer _ _ => if pl then none else some (true, hd)
      | Act.disposePlayer _ => if pl then some (false, hd) else none
      | Act.allocHandle _ => if pl || hd then none else some (pl, true)
      | Act.revokeHandle _ => if hd then some (pl, false) else none
      | _ => some (pl, hd)

/-- Replay a whole action list. -/
def resSteps (s : Option (Bool × Bool)) (l : List Act) :
    Option (Bool × Bool) :=
  l.foldl resStep s

/-- Number of engine constructions in a trace. -/
def countConstructs (l : List Act) : Nat :=
  l.countP fun a => match a with | Act.constructPlayer _ _ => true | _ => false

/-- Number of engine `dispose()` calls in a trace. -/
def countDisposes (l : List Act) : Nat :=
  l.countP fun a => match a with | Act.disposePlayer _ => true | _ => false

/-- The appearance-change callback registered by
`setupAppearanceChangeListener`: drops the event while the suppress-echo
flag is up, otherwise posts a `save-settings` message. -/
def appearanceChangeCallback (st : WebviewState) (s : AppearanceSettings) :
    List WebviewMsg :=
  if st.pendingSettingsRequest then []
  else [WebviewMsg.saveSettings (SettingsPayload.value s)]

/-- The `settings-loaded` case of `handleMessage`: apply the payload when
it is non-null and a player is live — `firedDuringApply` lists the
appearance-change events the engine fires synchronously into the
registered callback during `applyAppearanceSettings` — then clear the
suppress-echo flag. -/
def handleSettingsLoaded (st : WebviewState)
    (payload : Option AppearanceSettings)
    (firedDuringApply : List AppearanceSettings) :
    WebviewState × List WebviewMsg :=
  let outs :=
    if payload.isSome && st.playerInstance.isSome then
      (firedDuringApply.map (appearanceChangeCallback st)).flatten
    else []
  ({ st with pendingSettingsRequest := false }, outs)

/-- The `file-added` case of `handleMessage` (success path): feeds the
new file to the live player; the bridge state is untouched. -/
def handleFileAdded (st : WebviewState) : WebviewState := st

/- ### Webview side: layout readiness gate (`waitForContainerLayout`) -/

/-- `minWidth` — minimum expected container width in pixels. -/
def minWidthPx : Nat := 100

/-- Default `timeoutMs` of `waitForContainerLayout`. -/
def defaultTimeoutMs : Nat := 2000

/-- Delay passed to `setTimeout` between polls (~60 fps). -/
def pollIntervalMs : Nat := 16

/-- One observation of the container: elapsed milliseconds since the gate
started, and the reported client width/height. -/
structure LayoutSample where
  elapsed : Nat
  width : Nat
  height : Nat
deriving DecidableEq, Repr

/-- Outcome of the gate on a finite observation sequence. -/
inductive GateOutcome
  | resolved
  | rejected (lastWidth : Nat)
  | pending
deriving DecidableEq, Repr

/-- The `checkLayout` recursion over successive container observations.
`prev = some w` is the confirming animation-frame check after a first
valid reading of width `w` (this check does not consult the deadline, as
in the source); `prev = none` is a fresh `checkLayout` entry, which
rejects past the deadline, advances to the confirm step on a valid
reading, and otherwise schedules another poll 16 ms later (recorded in
the second component). -/
def gateRun (timeoutMs : Nat) : Option Nat → List LayoutSample →
    GateOutcome × List Nat
  | _, [] => (GateOutcome.pending, [])
  | none, s :: rest =>
      if s.elapsed > timeoutMs then (GateOutcome.rejected s.width, [])
      else if minWidthPx ≤ s.width ∧ 0 < s.height then
        gateRun timeoutMs (some s.width) rest
      else
        ((gateRun timeoutMs none rest).1,
          pollIntervalMs :: (gateRun timeoutMs none rest).2)
  | some w, s :: rest =>
      if minWidthPx ≤ s.width ∧ 0 < s.height ∧
          s.width - w < 10 ∧ w - s.width < 10 then
        (GateOutcome.resolved, [])
      else gateRun timeoutMs none rest

/- ### Auxiliary predicates and concrete fixtures used by the theorems -/

/-- A webview state with a full live session: player, blob URL and all
three subscriptions present. -/
def liveState (st : WebviewState) : Prop :=
  (∃ p, st.playerInstance = some p) ∧ (∃ h, st.currentBlobUrl = some h) ∧
  (∃ u, st.fileAddRequestUnsubscribe = some u) ∧
  (∃ u, st.audioFileAddRequestUnsubscribe = some u) ∧
  (∃ u, st.appearanceChangeUnsubscribe = some u)

/-- Claim C2's ordering, restricted to two of its steps: disposal of the
live engine (claimed step 1) precedes awaiting the layout gate (claimed
step 4) within a load's effect trace. -/
def disposePrecedesGate (tr : List Act) : Prop :=
  ∀ i j p, tr.get? i = some (Act.disposePlayer p) →
    tr.get? j = some Act.gateWait → i < j

/-- The state after the first successful load from a fresh sandbox. -/
def firstLoadState : WebviewState :=
  ⟨some 1, some 0, some 4, some 2, some 3, true, 5⟩

/-- The effect trace of the second load in a two-load run. -/
def secondLoadTrace : List Act := (handleMidiData firstLoadState).2

/-- A filesystem whose every probe fails for a reason other than
not-found (e.g. a permission error). -/
def otherErrFs : String → ProbeResult := fun _ => ProbeResult.errOther

/-- A directory containing only the dotfile `.mid`. -/
def dotfileFs : String → ProbeResult :=
  fun u => if u = "d/.mid" then ProbeResult.ok else ProbeResult.errNotFound

/-- A directory containing `song.mid` and `song(1).mid`. -/
def songDirFs : String → ProbeResult :=
  fun u =>
    if u = "d/song.mid" ∨ u = "d/song(1).mid" then ProbeResult.ok
    else ProbeResult.errNotFound

/-- An empty directory: every probe reports not-found. -/
def emptyDirFs : String → ProbeResult := fun _ => ProbeResult.errNotFound

/- ### Proofs -/

lemma charToSextet_sextetToChar_fin :
    ∀ s : Fin 64, charToSextet (sextetToChar s.val) = s.val := by decide

lemma sextetToChar_ne_pad_fin : ∀ s : Fin 64, sextetToChar s.val ≠ '=' := by
  decide

lemma charToSextet_sextetToChar {s : Nat} (h : s < 64) :
    charToSextet (sextetToChar s) = s :=
  charToSextet_sextetToChar_fin ⟨s, h⟩

lemma sextetToChar_ne_pad {s : Nat} (h : s < 64) : sextetToChar s ≠ '=' :=
  sextetToChar_ne_pad_fin ⟨s, h⟩

/-- Base64 round trip: the webview's decoder inverts the host's encoder on
every byte list. -/
theorem b64_roundtrip :
    ∀ l : List Nat, (∀ b ∈ l, b < 256) →
      decodeBase64ToUint8Array (b64encodeBytes l) = l
  | [], _ => rfl
  | [b1], h => by
      have h1 : b1 < 256 := h b1 (by simp)
      have hs1 : b1 / 4 < 64 := by omega
      have hs2 : b1 % 4 * 16 < 64 := by omega
      show decodeBase64ToUint8Array
        [sextetToChar (b1 / 4), sextetToChar (b1 % 4 * 16), '=', '='] = [b1]
      rw [decodeBase64ToUint8Array, if_pos rfl]
      rw [charToSextet_sextetToChar hs1, charToSextet_sextetToChar hs2]
      simp only [List.cons.injEq, and_true]
      omega
  | [b1, b2], h => by
      have h1 : b1 < 256 := h b1 (by simp)
      have h2 : b2 < 256 := h b2 (by simp)
      have hs1 : b1 / 4 < 64 := by omega
      have hs2 : b1 % 4 * 16 + b2 / 16 < 64 := by omega
      have hs3 : b2 % 16 * 4 < 64 := by omega
      show decodeBase64ToUint8Array
        [sextetToChar (b1 / 4), sextetToChar (b1 % 4 * 16 + b2 / 16),
          sextetToChar (b2 % 16 * 4), '='] = [b1, b2]
      rw [decodeBase64ToUint8Array, if_neg (sextetToChar_ne_pad hs3),
        if_pos rfl]
      rw [charToSextet_sextetToChar hs1, charToSextet_sextetToChar hs2,
        charToSextet_sextetToChar hs3]
      simp only [List.cons.injEq, and_true]
      constructor
      · omega
      · omega
  | b1 :: b2 :: b3 :: rest, h => by
      have h1 : b1 < 256 := h b1 (by simp)
      have h2 : b2 < 256 := h b2 (by simp)
      have h3 : b3 < 256 := h b3 (by simp)
      have ih := b64_roundtrip rest (fun b hb => h b (by simp [hb]))
      have hs1 : b1 / 4 < 64 := by omega
      have hs2 : b1 % 4 * 16 + b2 / 16 < 64 := by omega
      have hs3 : b2 % 16 * 4 + b3 / 64 < 64 := by omega
      have hs4 : b3 % 64 < 64 := by omega
      show decodeBase64ToUint8Array
        (sextetToChar (b1 / 4) :: sextetToChar (b1 % 4 * 16 + b2 / 16) ::
          sextetToChar (b2 % 16 * 4 + b3 / 64) :: sextetToChar (b3 % 64) ::
          b64encodeBytes rest) = b1 :: b2 :: b3 :: rest
      rw [decodeBase64ToUint8Array, if_neg (sextetToChar_ne_pad hs3),
        if_neg (sextetToChar_ne_pad hs4)]
      rw [charToSextet_sextetToChar hs1, charToSextet_sextetToChar hs2,
        charToSextet_sextetToChar hs3, charToSextet_sextetToChar hs4]
      simp only [List.cons.injEq]
      refine ⟨by omega, by omega, by omega, ih⟩

/- ### Session lifecycle lemmas -/

lemma handleMidiData_live (st : WebviewState) (p h fu au ap : Nat)
    (hp : st.playerInstance = some p) (hb : st.currentBlobUrl = some h)
    (hf : st.fileAddRequestUnsubscribe = some fu)
    (ha : st.audioFileAddRequestUnsubscribe = some au)
    (hap : st.appearanceChangeUnsubscribe = some ap) :
    handleMidiData st =
      (⟨some (st.fresh + 1), some st.fresh, some (st.fresh + 4),
          some (st.fresh + 2), some (st.fresh + 3), true, st.fresh + 5⟩,
        [Act.gateWait, Act.decodeData, Act.disposePlayer p,
          Act.revokeHandle h, Act.allocHandle st.fresh,
          Act.constructPlayer (st.fresh + 1) st.fresh,
          Act.unsubscribe fu, Act.unsubscribe au,
          Act.subscribeFileAdd (st.fresh + 2),
          Act.subscribeAudioAdd (st.fresh + 3),
          Act.postMessage WebviewMsg.getSettings, Act.unsubscribe ap,
          Act.subscribeAppearance (st.fresh + 4)]) := by
  rcases st with ⟨pl, bl, apo, fuo, auo, pend, fr⟩
  cases hp; cases hb; cases hf; cases ha; cases hap
  rfl

lemma beforeUnload_live (st : WebviewState) (p h fu au ap : Nat)
    (hp : st.playerInstance = some p) (hb : st.currentBlobUrl = some h)
    (hf : st.fileAddRequestUnsubscribe = some fu)
    (ha : st.audioFileAddRequestUnsubscribe = some au)
    (hap : st.appearanceChangeUnsubscribe = some ap) :
    beforeUnload st =
      (⟨none, none, none, none, none, st.pendingSettingsRequest, st.fresh⟩,
        [Act.unsubscribe ap, Act.unsubscribe fu, Act.unsubscribe au,
          Act.disposePlayer p, Act.revokeHandle h]) := by
  rcases st with ⟨pl, bl, apo, fuo, auo, pend, fr⟩
  cases hp; cases hb; cases hf; cases ha; cases hap
  rfl

lemma runLoads_succ (n : Nat) (st : WebviewState) :
    runLoads (n + 1) st =
      ((runLoads n (handleMidiData st).1).1,
        (handleMidiData st).2 ++ (runLoads n (handleMidiData st).1).2) := rfl

lemma loadScenario_eq (n : Nat) :
    loadScenario n =
      (runLoads n initialWebviewState).2 ++
        (beforeUnload (runLoads n initialWebviewState).1).2 := rfl

lemma countConstructs_append (a b : List Act) :
    countConstructs (a ++ b) = countConstructs a + countConstructs b :=
  List.countP_append _ a b

lemma countDisposes_append (a b : List Act) :
    countDisposes (a ++ b) = countDisposes a + countDisposes b :=
  List.countP_append _ a b

lemma resSteps_append (s : Option (Bool × Bool)) (a b : List Act) :
    resSteps s (a ++ b) = resSteps (resSteps s a) b :=
  List.foldl_append _ s a b

lemma runLoads_live (n : Nat) : ∀ st : WebviewState, liveState st →
    countConstructs (runLoads n st).2 = n ∧
    countDisposes (runLoads n st).2 = n ∧
    resSteps (some (true, true)) (runLoads n st).2 = some (true, true) ∧
    liveState (runLoads n st).1 := by
  induction n with
  | zero => exact fun st hl => ⟨rfl, rfl, rfl, hl⟩
  | succ n ih =>
      intro st hl
      obtain ⟨⟨p, hp⟩, ⟨h, hb⟩, ⟨fu, hf⟩, ⟨au, ha⟩, ⟨ap, hap⟩⟩ := hl
      have hblock := handleMidiData_live st p h fu au ap hp hb hf ha hap
      have hb2 : (handleMidiData st).2 =
          [Act.gateWait, Act.decodeData, Act.disposePlayer p,
            Act.revokeHandle h, Act.allocHandle st.fresh,
            Act.constructPlayer (st.fresh + 1) st.fresh,
            Act.unsubscribe fu, Act.unsubscribe au,
            Act.subscribeFileAdd (st.fresh + 2),
            Act.subscribeAudioAdd (st.fresh + 3),
            Act.postMessage WebviewMsg.getSettings, Act.unsubscribe ap,
            Act.subscribeAppearance (st.fresh + 4)] :=
        congrArg Prod.snd hblock
      have hlive1 : liveState (handleMidiData st).1 := by
        rw [congrArg Prod.fst hblock]
        exact ⟨⟨_, rfl⟩, ⟨_, rfl⟩, ⟨_, rfl⟩, ⟨_, rfl⟩, ⟨_, rfl⟩⟩
      obtain ⟨ihc, ihd, ihr, ihl⟩ := ih (handleMidiData st).1 hlive1
      have hone : countConstructs
          [Act.gateWait, Act.decodeData, Act.disposePlayer p,
            Act.revokeHandle h, Act.allocHandle st.fresh,
            Act.constructPlayer (st.fresh + 1) st.fresh,
            Act.unsubscribe fu, Act.unsubscribe au,
            Act.subscribeFileAdd (st.fresh + 2),
            Act.subscribeAudioAdd (st.fresh + 3),
            Act.postMessage WebviewMsg.getSettings, Act.unsubscribe ap,
            Act.subscribeAppearance (st.fresh + 4)] = 1 := rfl
      have honeD : countDisposes
          [Act.gateWait, Act.decodeData, Act.disposePlayer p,
            Act.revokeHandle h, Act.allocHandle st.fresh,
            Act.constructPlayer (st.fresh + 1) st.fresh,
            Act.unsubscribe fu, Act.unsubscribe au,
            Act.subscribeFileAdd (st.fresh + 2),
            Act.subscribeAudioAdd (st.fresh + 3),
            Act.postMessage WebviewMsg.getSettings, Act.unsubscribe ap,
            Act.subscribeAppearance (st.fresh + 4)] = 1 := rfl
      refine ⟨?_, ?_, ?_, ?_⟩
      · rw [runLoads_succ, countConstructs_append, hb2, ihc]
        omega
      · rw [runLoads_succ, countDisposes_append, hb2, ihd]
        omega
      · rw [runLoads_succ, resSteps_append, hb2]
        exact ihr
      · rw [runLoads_succ]
        exact ihl

/-- C1. Over a run of `n` sequential load-data events followed by the
sandbox teardown, exactly `n` engine constructions and exactly `n` engine
`dispose()` calls occur, and the replayed trace never constructs a player
while one is live nor allocates a blob handle while one is live — each
disposal and handle release strictly precedes the next construction and
allocation, so no two sessions' resources coexist. -/
theorem claim_C1 (n : Nat) :
    countConstructs (loadScenario n) = n ∧
    countDisposes (loadScenario n) = n ∧
    resSteps (some (false, false)) (loadScenario n) = some (false, false) := by
  cases n with
  | zero => exact ⟨rfl, rfl, rfl⟩
  | succ m =>
      have hfirst : handleMidiData initialWebviewState =
          (firstLoadState,
            [Act.gateWait, Act.decodeData, Act.allocHandle 0,
              Act.constructPlayer 1 0, Act.subscribeFileAdd 2,
              Act.subscribeAudioAdd 3, Act.postMessage WebviewMsg.getSettings,
              Act.subscribeAppearance 4]) := rfl
      obtain ⟨hc, hd, hr, hl⟩ := runLoads_live m firstLoadState
        ⟨⟨1, rfl⟩, ⟨0, rfl⟩, ⟨2, rfl⟩, ⟨3, rfl⟩, ⟨4, rfl⟩⟩
      obtain ⟨⟨p, hp⟩, ⟨h, hb⟩, ⟨fu, hf⟩, ⟨au, ha⟩, ⟨ap, hap⟩⟩ := hl
      have hub := beforeUnload_live _ p h fu au ap hp hb hf ha hap
      have hub2 : (beforeUnload (runLoads m firstLoadState).1).2 =
          [Act.unsubscribe ap, Act.unsubscribe fu, Act.unsubscribe au,
            Act.disposePlayer p, Act.revokeHandle h] :=
        congrArg Prod.snd hub
      have hscen : loadScenario (m + 1) =
          [Act.gateWait, Act.decodeData, Act.allocHandle 0,
            Act.constructPlayer 1 0, Act.subscribeFileAdd 2,
            Act.subscribeAudioAdd 3, Act.postMessage WebviewMsg.getSettings,
            Act.subscribeAppearance 4] ++
          (runLoads m firstLoadState).2 ++
          [Act.unsubscribe ap, Act.unsubscribe fu, Act.unsubscribe au,
            Act.disposePlayer p, Act.revokeHandle h] := by
        rw [loadScenario_eq, runLoads_succ, hfirst]
        exact congrArg _ hub2
      have hubC : countConstructs
          [Act.unsubscribe ap, Act.unsubscribe fu, Act.unsubscribe au,
            Act.disposePlayer p, Act.revokeHandle h] = 0 := rfl
      have hubD : countDisposes
          [Act.unsubscribe ap, Act.unsubscribe fu, Act.unsubscribe au,
            Act.disposePlayer p, Act.revokeHandle h] = 1 := rfl
      have hb0C : countConstructs
          [Act.gateWait, Act.decodeData, Act.allocHandle 0,
            Act.constructPlayer 1 0, Act.subscribeFileAdd 2,
            Act.subscribeAudioAdd 3, Act.postMessage WebviewMsg.getSettings,
            Act.subscribeAppearance 4] = 1 := rfl
      have hb0D : countDisposes
          [Act.gateWait, Act.decodeData, Act.allocHandle 0,
            Act.constructPlayer 1 0, Act.subscribeFileAdd 2,
            Act.subscribeAudioAdd 3, Act.postMessage WebviewMsg.getSettings,
            Act.subscribeAppearance 4] = 0 := rfl
      refine ⟨?_, ?_, ?_⟩
      · rw [hscen, countConstructs_append, countConstructs_append, hc, hubC,
          hb0C]
        omega
      · rw [hscen, countDisposes_append, countDisposes_append, hd, hubD,
          hb0D]
        omega
      · rw [hscen, resSteps_append, resSteps_append]
        show resSteps (resSteps (some (true, true))
          (runLoads m firstLoadState).2) _ = some (false, false)
        rw [hr]
        rfl

/-- C2 (counterexample). The claim puts disposal of the live engine at
step 1 and the await of the layout gate at step 4 of a load's effects; in
the actual trace of the second load of a two-load run, the gate await is
performed first and the disposal only after it, so the claimed order is
violated. -/
theorem claim_C2_counterexample : ¬ disposePrecedesGate secondLoadTrace := by
  intro hcl
  have h2 : secondLoadTrace.get? 2 = some (Act.disposePlayer 1) := rfl
  have h0 : secondLoadTrace.get? 0 = some Act.gateWait := rfl
  have := hcl 2 0 1 h2 h0
  omega

/-- C2 (amended). On a load-data event with a live session the sandbox
performs, in order: await the layout gate, decode the bytes, dispose the
live engine, release the previous blob handle, allocate a fresh handle,
construct the new engine against it, re-subscribe the add-file and
add-audio listeners (dropping the stale ones first), post the settings
request, and re-subscribe the appearance-change listener (dropping the
stale one first). -/
theorem claim_C2 (st : WebviewState) (p h fu au ap : Nat)
    (hp : st.playerInstance = some p) (hb : st.currentBlobUrl = some h)
    (hf : st.fileAddRequestUnsubscribe = some fu)
    (ha : st.audioFileAddRequestUnsubscribe = some au)
    (hap : st.appearanceChangeUnsubscribe = some ap) :
    handleMidiData st =
      (⟨some (st.fresh + 1), some st.fresh, some (st.fresh + 4),
          some (st.fresh + 2), some (st.fresh + 3), true, st.fresh + 5⟩,
        [Act.gateWait, Act.decodeData, Act.disposePlayer p,
          Act.revokeHandle h, Act.allocHandle st.fresh,
          Act.constructPlayer (st.fresh + 1) st.fresh,
          Act.unsubscribe fu, Act.unsubscribe au,
          Act.subscribeFileAdd (st.fresh + 2),
          Act.subscribeAudioAdd (st.fresh + 3),
          Act.postMessage WebviewMsg.getSettings, Act.unsubscribe ap,
          Act.subscribeAppearance (st.fresh + 4)]) :=
  handleMidiData_live st p h fu au ap hp hb hf ha hap

/-- Witness for C2's amended theorem at the state after the first load. -/
theorem claim_C2_witness :
    handleMidiData firstLoadState =
      (⟨some 6, some 5, some 9, some 7, some 8, true, 10⟩,
        [Act.gateWait, Act.decodeData, Act.disposePlayer 1,
          Act.revokeHandle 0, Act.allocHandle 5, Act.constructPlayer 6 5,
          Act.unsubscribe 2, Act.unsubscribe 3, Act.subscribeFileAdd 7,
          Act.subscribeAudioAdd 8, Act.postMessage WebviewMsg.getSettings,
          Act.unsubscribe 4, Act.subscribeAppearance 9]) :=
  claim_C2 firstLoadState 1 0 2 3 4 rfl rfl rfl rfl rfl

/- ### Settings echo suppression (webview) -/

lemma handleMidiData_pending (st : WebviewState) :
    (handleMidiData st).1.pendingSettingsRequest = true := by
  rcases st with ⟨pl, bl, apo, fuo, auo, pend, fr⟩
  cases pl <;> cases bl <;> cases apo <;> cases fuo <;> cases auo <;> rfl

lemma flatten_map_nil (l : List AppearanceSettings) :
    (l.map fun _ => ([] : List WebviewMsg)).flatten = [] := by
  induction l with
  | nil => rfl
  | cons a t ih => simp [ih]

/-- C5. While the suppress-echo flag is up, appearance-change events
fired synchronously during the application of a just-fetched settings
payload produce no save-settings message; processing the
`settings-loaded` response clears the flag whatever the payload was, and
an appearance-change event arriving afterwards posts exactly one
save-settings message.  The flag is cleared only there: a `midi-data`
load leaves it raised and a `file-added` message leaves the state
untouched. -/
theorem claim_C5 (st : WebviewState) (payload : Option AppearanceSettings)
    (fired : List AppearanceSettings) (s : AppearanceSettings)
    (hpend : st.pendingSettingsRequest = true) :
    (handleSettingsLoaded st payload fired).2 = [] ∧
    (handleSettingsLoaded st payload fired).1.pendingSettingsRequest = false ∧
    appearanceChangeCallback (handleSettingsLoaded st payload fired).1 s =
      [WebviewMsg.saveSettings (SettingsPayload.value s)] ∧
    (handleMidiData st).1.pendingSettingsRequest = true ∧
    handleFileAdded st = st := by
  refine ⟨?_, rfl, ?_, handleMidiData_pending st, rfl⟩
  · simp [handleSettingsLoaded, appearanceChangeCallback, hpend,
      flatten_map_nil]
  · simp [handleSettingsLoaded, appearanceChangeCallback]

/-- Witness for C5 at the state reached after the first load. -/
theorem claim_C5_witness :
    (handleSettingsLoaded firstLoadState (some ⟨"vivid", none, none⟩)
      [⟨"vivid", none, none⟩]).2 = [] ∧
    (handleSettingsLoaded firstLoadState (some ⟨"vivid", none, none⟩)
      [⟨"vivid", none, none⟩]).1.pendingSettingsRequest = false ∧
    appearanceChangeCallback
      (handleSettingsLoaded firstLoadState (some ⟨"vivid", none, none⟩)
        [⟨"vivid", none, none⟩]).1 ⟨"vivid", none, none⟩ =
      [WebviewMsg.saveSettings (SettingsPayload.value ⟨"vivid", none, none⟩)] ∧
    (handleMidiData firstLoadState).1.pendingSettingsRequest = true ∧
    handleFileAdded firstLoadState = firstLoadState :=
  claim_C5 firstLoadState (some ⟨"vivid", none, none⟩) [⟨"vivid", none, none⟩]
    ⟨"vivid", none, none⟩ rfl

/- ### Settings store round trip (host) -/

lemma stateGet_stateUpdate (st : GlobalState) (key : String)
    (v : AppearanceSettings) : stateGet (stateUpdate st key v) key = some v := by
  simp [stateGet, stateUpdate]

/-- C7. A `save-settings` followed by a `get-settings` for the same
document answers with exactly the last-saved structure (the store entry
is overwritten wholesale), and a `get-settings` for a document with no
stored entry answers with the explicit `null` marker — in both cases a
single `settings-loaded` response is posted, never an error and never no
response. -/
theorem claim_C7 (fs : String → ProbeResult) (fuel : Nat)
    (doc : MidiDocument) (store : GlobalState) (s : AppearanceSettings) :
    (handleWebviewMessage fs fuel doc
        (handleWebviewMessage fs fuel doc store
          (WebviewMsg.saveSettings (SettingsPayload.value s))).1
        WebviewMsg.getSettings).2.messages =
      [HostMsg.settingsLoaded (some s)] ∧
    (loadAppearanceSettings store doc.uri = none →
      (handleWebviewMessage fs fuel doc store
        WebviewMsg.getSettings).2.messages =
        [HostMsg.settingsLoaded none]) := by
  constructor
  · simp [handleWebviewMessage, loadAppearanceSettings,
      saveAppearanceSettings, stateGet_stateUpdate]
  · intro hnone
    simp [handleWebviewMessage, hnone]

/-- Witness for C7 on an empty store. -/
theorem claim_C7_witness :
    (handleWebviewMessage emptyDirFs 0 ⟨"u", "p", []⟩
        (handleWebviewMessage emptyDirFs 0 ⟨"u", "p", []⟩ []
          (WebviewMsg.saveSettings
            (SettingsPayload.value ⟨"vivid", none, none⟩))).1
        WebviewMsg.getSettings).2.messages =
      [HostMsg.settingsLoaded (some ⟨"vivid", none, none⟩)] ∧
    (handleWebviewMessage emptyDirFs 0 ⟨"u", "p", []⟩ []
        WebviewMsg.getSettings).2.messages =
      [HostMsg.settingsLoaded none] :=
  ⟨(claim_C7 emptyDirFs 0 ⟨"u", "p", []⟩ [] ⟨"vivid", none, none⟩).1,
    (claim_C7 emptyDirFs 0 ⟨"u", "p", []⟩ [] ⟨"vivid", none, none⟩).2 rfl⟩

/- ### Falsy save-settings payload (host) -/

/-- C10. A `save-settings` message whose payload fails the `if (settings)`
truthiness guard leaves the settings store entirely unchanged — every
stored key included — and produces no message, write or notification. -/
theorem claim_C10 (fs : String → ProbeResult) (fuel : Nat)
    (doc : MidiDocument) (store : GlobalState) (payload : SettingsPayload)
    (h : payload.truthy = false) :
    handleWebviewMessage fs fuel doc store (WebviewMsg.saveSettings payload) =
      (store, emptyEffects) := by
  cases payload with
  | absent => rfl
  | nullPayload => rfl
  | value s => simp [SettingsPayload.truthy] at h

/-- Witness for C10 with a null payload. -/
theorem claim_C10_witness :
    handleWebviewMessage emptyDirFs 0 ⟨"u", "p", []⟩ []
        (WebviewMsg.saveSettings SettingsPayload.nullPayload) =
      ([], emptyEffects) :=
  claim_C10 emptyDirFs 0 ⟨"u", "p", []⟩ [] SettingsPayload.nullPayload rfl

/- ### Add-file relay (host, modelled from the spec) -/

/-- C4. On an `add-midi-files` or `add-audio-file` request, if the native
file picker returns a selection the host reads its bytes, base64-encodes
them and posts a single `file-added` message carrying the encoded data
and the filename; a cancelled picker posts nothing. -/
theorem claim_C4 (name : String) (bytes : List Nat) :
    handleAddFileRequest (some (name, bytes)) =
      [HostMsg.fileAdded (b64encodeBytes bytes) name] ∧
    handleAddFileRequest none = [] := ⟨rfl, rfl⟩

/- ### Base64 round trip -/

/-- C8. For every byte sequence, the sandbox's base64 decoding of the
host's base64 encoding returns the original bytes. -/
theorem claim_C8 (B : List Nat) (h : ∀ b ∈ B, b < 256) :
    decodeBase64ToUint8Array (b64encodeBytes B) = B := b64_roundtrip B h

/-- Witness for C8 on the MIDI header bytes `MThd`. -/
theorem claim_C8_witness :
    decodeBase64ToUint8Array (b64encodeBytes [77, 84, 104, 100]) =
      [77, 84, 104, 100] :=
  claim_C8 [77, 84, 104, 100] (by decide)

/- ### Export-path probe failures -/

/-- C3 (counterexample). On a filesystem whose probes fail with a
non-not-found error, the bare `catch` of `fileExists` reports the path as
NOT existing, and the resolver keeps the original candidate instead of
advancing to the next name — the opposite of the claimed conservative
treatment. -/
theorem claim_C3_counterexample :
    otherErrFs "d/song.mid" = ProbeResult.errOther ∧
    fileExists otherErrFs "d/song.mid" = false ∧
    getUniqueFileUri otherErrFs "d" "song.mid" 5 = some "d/song.mid" :=
  ⟨rfl, rfl, rfl⟩

/-- C3 (amended). An existence probe that fails for any reason —
not-found or otherwise — is treated as "does not exist", and the resolver
selects that candidate rather than advancing to the next name. -/
theorem claim_C3 :
    (∀ (fs : String → ProbeResult) (uri : String),
      fs uri ≠ ProbeResult.ok → fileExists fs uri = false) ∧
    (∀ (fs : String → ProbeResult) (dir f : String) (fuel counter : Nat),
      fs (joinPath dir (candidateName f counter)) ≠ ProbeResult.ok →
      getUniqueFileUriAux fs dir f (fuel + 1) counter =
        some (joinPath dir (candidateName f counter))) := by
  have hfe : ∀ (fs : String → ProbeResult) (uri : String),
      fs uri ≠ ProbeResult.ok → fileExists fs uri = false := by
    intro fs uri h
    unfold fileExists
    cases hr : fs uri
    · exact absurd hr h
    · rfl
    · rfl
  refine ⟨hfe, ?_⟩
  intro fs dir f fuel counter h
  rw [getUniqueFileUriAux, hfe fs _ h]
  rfl

/-- Witness for C3's amended theorem on an all-errors filesystem. -/
theorem claim_C3_witness :
    fileExists otherErrFs "u" = false ∧
    getUniqueFileUriAux otherErrFs "d" "f" 1 0 =
      some (joinPath "d" (candidateName "f" 0)) :=
  ⟨claim_C3.1 otherErrFs "u" (by decide),
    claim_C3.2 otherErrFs "d" "f" 0 0 (by decide)⟩

/- ### Export-path candidate enumeration -/

/-- C6 (counterexample). For the filename `.mid`, whose only separator is
its leading character, the code takes no extension (`lastDotIndex > 0`
fails) and produces candidate `.mid(1)`, while the claim's split at the
last separator predicts candidate `(1).mid`. -/
theorem claim_C6_counterexample :
    getUniqueFileUri dotfileFs "d" ".mid" 5 = some "d/.mid(1)" ∧
    joinPath "d" (claimCandidateName ".mid" 1) = "d/(1).mid" ∧
    ("d/.mid(1)" : String) ≠ "d/(1).mid" := ⟨rfl, rfl, by decide⟩

lemma getUniqueAux_char (fs : String → ProbeResult) (dir f : String) :
    ∀ (fuel counter : Nat) (t : String),
      getUniqueFileUriAux fs dir f fuel counter = some t →
      ∃ k, counter ≤ k ∧ t = joinPath dir (candidateName f k) ∧
        fileExists fs t = false ∧
        ∀ j, counter ≤ j → j < k →
          fileExists fs (joinPath dir (candidateName f j)) = true := by
  intro fuel
  induction fuel with
  | zero =>
      intro counter t h
      exact absurd h (by simp [getUniqueFileUriAux])
  | succ fuel ih =>
      intro counter t h
      by_cases hex :
          fileExists fs (joinPath dir (candidateName f counter)) = true
      · rw [getUniqueFileUriAux, if_pos hex] at h
        obtain ⟨k, hk1, hk2, hk3, hk4⟩ := ih (counter + 1) t h
        refine ⟨k, by omega, hk2, hk3, ?_⟩
        intro j hj1 hj2
        by_cases hj : j = counter
        · exact hj ▸ hex
        · exact hk4 j (by omega) hj2
      · have hfalse :
            fileExists fs (joinPath dir (candidateName f counter)) = false :=
          Bool.eq_false_iff.mpr hex
        rw [getUniqueFileUriAux, if_neg hex] at h
        refine ⟨counter, le_refl _, ?_, ?_, ?_⟩
        · exact (Option.some.injEq _ _).mp h.symm
        · rw [← (Option.some.injEq _ _).mp h]
          exact hfalse
        · intro j hj1 hj2
          omega

/-- C6 (amended). Export-path resolution splits the filename into base
and extension at the last separator character only when that separator is
not the leading character (a leading-dot name keeps no extension), and
probes candidates in order original, `base(1)ext`, `base(2)ext`, …,
returning the first candidate whose probe reports it free; concretely,
exporting `song.mid` into a directory holding `song.mid` and
`song(1).mid` yields `song(2).mid`, and into an empty directory yields
`song.mid` unchanged. -/
theorem claim_C6 :
    (∀ (fs : String → ProbeResult) (dir f : String) (fuel : Nat)
        (t : String),
      getUniqueFileUri fs dir f fuel = some t →
      ∃ k, t = joinPath dir (candidateName f k) ∧ fileExists fs t = false ∧
        ∀ j < k, fileExists fs (joinPath dir (candidateName f j)) = true) ∧
    getUniqueFileUri songDirFs "d" "song.mid" 5 = some "d/song(2).mid" ∧
    getUniqueFileUri emptyDirFs "d" "song.mid" 5 = some "d/song.mid" := by
  refine ⟨?_, rfl, rfl⟩
  intro fs dir f fuel t h
  obtain ⟨k, _, hk2, hk3, hk4⟩ := getUniqueAux_char fs dir f fuel 0 t h
  exact ⟨k, hk2, hk3, fun j hj => hk4 j (Nat.zero_le j) hj⟩

/-- Witness for C6's amended theorem on the empty directory. -/
theorem claim_C6_witness :
    ∃ k, "d/song.mid" = joinPath "d" (candidateName "song.mid" k) ∧
      fileExists emptyDirFs "d/song.mid" = false ∧
      ∀ j < k,
        fileExists emptyDirFs (joinPath "d" (candidateName "song.mid" j)) =
          true :=
  claim_C6.1 emptyDirFs "d" "song.mid" 5 "d/song.mid" rfl

/- ### Layout readiness gate -/

lemma gateRun_rejected_mem :
    ∀ (samples : List LayoutSample) (t : Nat) (prev : Option Nat) (w : Nat)
      (ds : List Nat),
      gateRun t prev samples = (GateOutcome.rejected w, ds) →
      ∃ s ∈ samples, s.elapsed > t ∧ s.width = w := by
  intro samples
  induction samples with
  | nil =>
      intro t prev w ds h
      cases prev <;> simp [gateRun] at h
  | cons s rest ih =>
      intro t prev w ds h
      cases prev with
      | none =>
          by_cases h1 : s.elapsed > t
          · rw [gateRun, if_pos h1] at h
            have hw : GateOutcome.rejected s.width = GateOutcome.rejected w :=
              ((Prod.mk.injEq _ _ _ _).mp h).1
            exact ⟨s, by simp, h1, (GateOutcome.rejected.injEq _ _).mp hw⟩
          · rw [gateRun, if_neg h1] at h
            by_cases h2 : minWidthPx ≤ s.width ∧ 0 < s.height
            · rw [if_pos h2] at h
              obtain ⟨s', hs', hmem⟩ := ih t (some s.width) w ds h
              exact ⟨s', by simp [hs'], hmem⟩
            · rw [if_neg h2] at h
              have ho : (gateRun t none rest).1 = GateOutcome.rejected w :=
                ((Prod.mk.injEq _ _ _ _).mp h).1
              obtain ⟨s', hs', hmem⟩ :=
                ih t none w (gateRun t none rest).2
                  (by rw [← ho])
              exact ⟨s', by simp [hs'], hmem⟩
      | some wprev =>
          by_cases h2 : minWidthPx ≤ s.width ∧ 0 < s.height ∧
              s.width - wprev < 10 ∧ wprev - s.width < 10
          · rw [gateRun, if_pos h2] at h
            exact absurd ((Prod.mk.injEq _ _ _ _).mp h).1 (by simp)
          · rw [gateRun, if_neg h2] at h
            obtain ⟨s', hs', hmem⟩ := ih t none w ds h
            exact ⟨s', by simp [hs'], hmem⟩

lemma gateRun_zero_rejects :
    ∀ (samples : List LayoutSample) (t : Nat),
      (∀ s ∈ samples, s.width = 0 ∧ s.height = 0) →
      (∃ s ∈ samples, s.elapsed > t) →
      (gateRun t none samples).1 = GateOutcome.rejected 0 := by
  intro samples
  induction samples with
  | nil =>
      intro t _ hex
      simp at hex
  | cons s rest ih =>
      intro t hall hex
      obtain ⟨hw, hh⟩ := hall s (by simp)
      by_cases h1 : s.elapsed > t
      · rw [gateRun, if_pos h1]
        simp [hw]
      · rw [gateRun, if_neg h1]
        have hcond : ¬(minWidthPx ≤ s.width ∧ 0 < s.height) := by
          rw [hw]
          simp [minWidthPx]
        rw [if_neg hcond]
        have hex' : ∃ s' ∈ rest, s'.elapsed > t := by
          obtain ⟨s', hs', he⟩ := hex
          rcases List.mem_cons.mp hs' with h | h
          · exact absurd (h ▸ he) h1
          · exact ⟨s', h, he⟩
        exact ih t (fun s' hs' => hall s' (by simp [hs'])) hex'

lemma gateRun_resolves (t : Nat) (s1 s2 : LayoutSample)
    (rest : List LayoutSample) (he : s1.elapsed ≤ t)
    (hw1 : minWidthPx ≤ s1.width) (hh1 : 0 < s1.height)
    (hw2 : minWidthPx ≤ s2.width) (hh2 : 0 < s2.height)
    (hd1 : s2.width - s1.width < 10) (hd2 : s1.width - s2.width < 10) :
    (gateRun t none (s1 :: s2 :: rest)).1 = GateOutcome.resolved := by
  rw [gateRun, if_neg (by omega), if_pos ⟨hw1, hh1⟩, gateRun,
    if_pos ⟨hw2, hh2, hd1, hd2⟩]

lemma gateRun_delays :
    ∀ (samples : List LayoutSample) (t : Nat) (prev : Option Nat) (d : Nat),
      d ∈ (gateRun t prev samples).2 → d = pollIntervalMs := by
  intro samples
  induction samples with
  | nil =>
      intro t prev d h
      cases prev <;> simp [gateRun] at h
  | cons s rest ih =>
      intro t prev d h
      cases prev with
      | none =>
          by_cases h1 : s.elapsed > t
          · rw [gateRun, if_pos h1] at h
            simp at h
          · rw [gateRun, if_neg h1] at h
            by_cases h2 : minWidthPx ≤ s.width ∧ 0 < s.height
            · rw [if_pos h2] at h
              exact ih t (some s.width) d h
            · rw [if_neg h2] at h
              rcases List.mem_cons.mp h with h | h
              · exact h
              · exact ih t none d h
      | some wprev =>
          by_cases h2 : minWidthPx ≤ s.width ∧ 0 < s.height ∧
              s.width - wprev < 10 ∧ wprev - s.width < 10
          · rw [gateRun, if_pos h2] at h
            simp at h
          · rw [gateRun, if_neg h2] at h
            exact ih t none d h

/-- C9. The layout gate resolves once an observation with width ≥ 100 and
height > 0 is confirmed by the following animation-frame check (width
delta < 10); whenever it rejects it does so at an observation whose
elapsed time exceeds the timeout — never earlier — carrying that
observation's width; on a container stuck at 0×0 it rejects with last
width 0 as soon as an observation passes the deadline; every poll it
schedules between checks is 16 ms; and the built-in constants are
100 px minimum width, 2000 ms default timeout, 16 ms poll interval. -/
theorem claim_C9 :
    (∀ (t : Nat) (prev : Option Nat) (samples : List LayoutSample)
        (w : Nat) (ds : List Nat),
      gateRun t prev samples = (GateOutcome.rejected w, ds) →
      ∃ s ∈ samples, s.elapsed > t ∧ s.width = w) ∧
    (∀ (t : Nat) (samples : List LayoutSample),
      (∀ s ∈ samples, s.width = 0 ∧ s.height = 0) →
      (∃ s ∈ samples, s.elapsed > t) →
      (gateRun t none samples).1 = GateOutcome.rejected 0) ∧
    (∀ (t : Nat) (s1 s2 : LayoutSample) (rest : List LayoutSample),
      s1.elapsed ≤ t → minWidthPx ≤ s1.width → 0 < s1.height →
      minWidthPx ≤ s2.width → 0 < s2.height →
      s2.width - s1.width < 10 → s1.width - s2.width < 10 →
      (gateRun t none (s1 :: s2 :: rest)).1 = GateOutcome.resolved) ∧
    (∀ (t : Nat) (prev : Option Nat) (samples : List LayoutSample) (d : Nat),
      d ∈ (gateRun t prev samples).2 → d = pollIntervalMs) ∧
    minWidthPx = 100 ∧ defaultTimeoutMs = 2000 ∧ pollIntervalMs = 16 :=
  ⟨fun t prev samples w ds h => gateRun_rejected_mem samples t prev w ds h,
    fun t samples hall hex => gateRun_zero_rejects samples t hall hex,
    fun t s1 s2 rest he hw1 hh1 hw2 hh2 hd1 hd2 =>
      gateRun_resolves t s1 s2 rest he hw1 hh1 hw2 hh2 hd1 hd2,
    fun t prev samples d h => gateRun_delays samples t prev d h,
    rfl, rfl, rfl⟩

/-- Witness for C9: a never-sized container rejects with width 0 just
past the default timeout, and a promptly stable container resolves. -/
theorem claim_C9_witness :
    (gateRun 2000 none [⟨2001, 0, 0⟩]).1 = GateOutcome.rejected 0 ∧
    (gateRun 2000 none [⟨10, 120, 50⟩, ⟨26, 121, 50⟩]).1 =
      GateOutcome.resolved :=
  ⟨claim_C9.2.1 2000 [⟨2001, 0, 0⟩] (by decide) (by decide),
    claim_C9.2.2.1 2000 ⟨10, 120, 50⟩ ⟨26, 121, 50⟩ [] (by decide)
      (by decide) (by decide) (by decide) (by decide) (by decide)
      (by decide)⟩
